import Mathlib

/-!
Verification development for the BreezeBlocks SQL query layer.

The definitions below are a shallow embedding of
  src/package/breezeblocks/sql/query.py   (Query, AliasedQuery, _QueryColumn,
                                           _QueryColumnCollection)
  src/package/breezeblocks/database.py    (Database, _get_param_marker)
together with the pieces of the package that the shipped sources reference
but do not contain (the query builder, the connection pool, the exceptions
module, `Query.set_param`, `ColumnCollection`); those are modelled from the
specification and are marked as such in their doc comments.

Python machine model used throughout: cell values are a small inductive
type; a row is a list of cells; exceptions become `Except`; attribute
lookup on an attribute that was never assigned becomes an
`attributeError` value; `collections.namedtuple` with `rename=True` is
embedded by `renameFields` below, following the CPython implementation.
-/

/-- A database cell / Python value, as far as the claims need it. -/
inductive Cell where
  | intVal (i : Int)
  | strVal (s : String)
  | nullVal
deriving DecidableEq, Repr

/-- One parameter slot of a finalized query: the optional user-supplied
name of the originating Value expression, and the bound value.
The name component is modelled from the spec (a Value expression
"optionally carries a user-supplied name enabling post-construction
rebinding"); the value component is what the source passes to the
cursor. -/
abbrev ParamSlot := Option String × Cell

/-- A fetched row, as handed back by the driver's fetchall. -/
abbrev Row := List Cell

/-- A decoded record: field name paired with cell value, in column order.
This is the explicit form of the namedtuple instance the source builds. -/
abbrev Record := List (String × Cell)

/-! ### CPython namedtuple(…, rename=True) machinery (invoked at query.py:36) -/

/-- ASCII model of a character legal at the start of a Python identifier. -/
def isIdentStart (c : Char) : Bool := c.isAlpha || c == '_'

/-- ASCII model of a character legal after the start of a Python identifier. -/
def isIdentChar (c : Char) : Bool := c.isAlphanum || c == '_'

/-- ASCII model of Python's str.isidentifier. -/
def isIdentifier (s : String) : Bool :=
  match s.data with
  | [] => false
  | c :: cs => isIdentStart c && cs.all isIdentChar

/-- The Python keyword list checked by keyword.iskeyword. -/
def pythonKeywords : List String :=
  ["False", "None", "True", "and", "as", "assert", "async", "await",
   "break", "class", "continue", "def", "del", "elif", "else", "except",
   "finally", "for", "from", "global", "if", "import", "in", "is",
   "lambda", "nonlocal", "not", "or", "pass", "raise", "return", "try",
   "while", "with", "yield"]

/-- Model of keyword.iskeyword. -/
def isPythonKeyword (s : String) : Bool := pythonKeywords.any (· == s)

/-- Model of Python's str.startswith for the single prefix used here. -/
def startsWithUnderscore (s : String) : Bool := s.data.head? == some '_'

/-- The renaming pass of collections.namedtuple with rename=True
(CPython: a field name that is not an identifier, is a keyword, starts
with an underscore, or repeats an earlier name is replaced by an
underscore followed by its position; the original name is what is added
to the seen set). -/
def renameGo : Nat → List String → List String → List String
  | _, _, [] => []
  | i, seen, n :: rest =>
    (if !(isIdentifier n) || isPythonKeyword n || startsWithUnderscore n
        || seen.contains n
     then "_" ++ Nat.repr i else n) :: renameGo (i + 1) (n :: seen) rest

/-- Field names after namedtuple's rename=True pass. -/
def renameFields (names : List String) : List String := renameGo 0 [] names

/-- The validation namedtuple performs on the (already renamed) field
names: each must be a non-keyword identifier, and duplicates raise. -/
def validFieldsGo : List String → List String → Bool
  | _, [] => true
  | seen, n :: rest =>
    isIdentifier n && !(isPythonKeyword n) && !(seen.contains n)
      && validFieldsGo (n :: seen) rest

/-- True when namedtuple accepts this field-name list without raising. -/
def fieldNamesValid (names : List String) : Bool := validFieldsGo [] names

/-! ### Expression model (rendering interface of a value expression) -/

/-- A value expression, abstracted to its rendering outputs: the results
of its get name, get ref field and get select field methods. The claims
below only depend on these three strings. -/
structure SqlExpr where
  getName : String
  getRefField : String
  getSelectField : String
deriving DecidableEq, Repr

/-- Embeds _QueryColumn (query.py:112-136): its get name method returns
the wrapped column's name, and both its get ref field and its get select
field methods return that same bare name, with no table qualification.
(The source also stores the owning query for its get tables method,
which no claim here depends on.) -/
def queryColumn (column : SqlExpr) : SqlExpr :=
  { getName := column.getName
    getRefField := column.getName
    getSelectField := column.getName }

/-- Modelled from the spec: ColumnCollection
(src/package/breezeblocks/sql/column_collection.py is not among the
shipped sources). It stores columns in order, and getNames returns each
column's name in that order ("outer result columns equal exactly the
inner query's SELECT-list output names, in the same order"). -/
structure ColumnCollection where
  columns : List SqlExpr
deriving DecidableEq, Repr

def ColumnCollection.getNames (c : ColumnCollection) : List String :=
  c.columns.map SqlExpr.getName

/-- The validated, frozen shape of a query; the claims only use its
selected expressions (query.py reads spec.select_exprs). -/
structure QuerySpec where
  select_exprs : List SqlExpr
deriving DecidableEq, Repr

/-! ### Connection pool (modelled from the spec) -/

/-- Modelled from the spec: the ConnectionPool's bookkeeping state
(src/package/breezeblocks/pool.py is not among the shipped sources):
how many connections are idle, how many are checked out, and the
configured maximum on outstanding connections. -/
structure PoolState where
  idle : Nat
  inUse : Nat
  maxconn : Nat
deriving DecidableEq, Repr

/-- Modelled from the spec: pool checkout. Reuses an idle connection if
one exists, else opens a new one when below the maximum; a saturated
pool makes the caller block, modelled as none. -/
def PoolState.get (p : PoolState) : Option PoolState :=
  if 0 < p.idle then
    some { idle := p.idle - 1, inUse := p.inUse + 1, maxconn := p.maxconn }
  else if p.idle + p.inUse < p.maxconn then
    some { idle := p.idle, inUse := p.inUse + 1, maxconn := p.maxconn }
  else
    none

/-- Modelled from the spec: scope exit of the with-block on pool.get
returns the checked-out connection to the idle set, not closed. -/
def PoolState.put (p : PoolState) : PoolState :=
  { idle := p.idle + 1, inUse := p.inUse - 1, maxconn := p.maxconn }

/-! ### Exceptions (breezeblocks/exceptions.py is not among the shipped
sources; constructors follow the names the shipped sources raise) -/

/-- Errors raised by the query layer (QueryError and the named parameter
error from the spec's error taxonomy). -/
inductive QueryError where
  | noDatabase
  | havingRequiresGroupBy
  | unknownParam (name : String)
deriving DecidableEq, Repr

/-- Errors raised at Database construction. -/
inductive DatabaseError where
  | missingModuleError
  | unsupportedModuleError
deriving DecidableEq, Repr

/-- Python runtime errors reached by the shipped sources. -/
inductive PyRuntimeError where
  | attributeError (attr : String)
deriving DecidableEq, Repr

/-! ### Driver module and Database (database.py) -/

/-- A driver connection; abstract beyond identity. -/
structure Connection where
  connId : Nat
deriving DecidableEq, Repr

/-- The DBAPI module contract: a declared paramstyle and a connect
operation taking dsn-or-first-argument, positional and keyword
arguments. -/
structure DBAPIModule where
  paramstyle : String
  connect : List Cell → List (String × Cell) → Connection

/-- Embeds _get_param_marker (database.py:77-85). -/
def _get_param_marker (m : DBAPIModule) : Except DatabaseError String :=
  if m.paramstyle = "qmark" then Except.ok "?"
  else if m.paramstyle = "format" then Except.ok "%s"
  else if m.paramstyle = "pyformat" then Except.ok "%s"
  else Except.error DatabaseError.unsupportedModuleError

/-- The Database object's attribute state after construction. The two
Option-typed fields model Python attribute presence: __init__
(database.py:9-37) assigns _dsn, _dbapi, _param_marker and pool, and
never assigns _connection_args or _connection_kwargs, so those hold
none (attribute absent) on every constructed instance. -/
structure Database where
  _dsn : Option String
  _dbapi : DBAPIModule
  _param_marker : String
  pool : PoolState
  _connection_args : Option (List Cell)
  _connection_kwargs : Option (List (String × Cell))

/-- Embeds Database.__init__ (database.py:9-37). The pool construction
is modelled from the spec: minconn idle connections pre-opened eagerly,
maxconn bounding outstanding connections. -/
def Database.init (connect_args : Option (List Cell))
    (connect_kwargs : Option (List (String × Cell)))
    (dbapi_module : Option DBAPIModule) (dsn : Option String)
    (minconn : Nat) (maxconn : Nat) : Except DatabaseError Database :=
  match dbapi_module with
  | none => Except.error DatabaseError.missingModuleError
  | some m =>
    match _get_param_marker m with
    | Except.error e => Except.error e
    | Except.ok marker =>
      let args := connect_args.getD []
      let kwargs := connect_kwargs.getD []
      let args := match dsn with
        | some d => Cell.strVal d :: args
        | none => args
      let _ := args
      let _ := kwargs
      Except.ok
        { _dsn := dsn
          _dbapi := m
          _param_marker := marker
          pool := { idle := minconn, inUse := 0, maxconn := maxconn }
          _connection_args := none
          _connection_kwargs := none }

/-- Embeds Database.connect (database.py:72-75). The body reads
self._dbapi, self._dsn, self._connection_args and
self._connection_kwargs; reading an attribute that was never assigned
raises AttributeError before dbapi.connect is ever called. -/
def Database.connect (d : Database) : Except PyRuntimeError Connection :=
  match d._connection_args with
  | none => Except.error (PyRuntimeError.attributeError "_connection_args")
  | some args =>
    match d._connection_kwargs with
    | none => Except.error (PyRuntimeError.attributeError "_connection_kwargs")
    | some kwargs =>
      Except.ok (d._dbapi.connect
        ((match d._dsn with
          | some s => Cell.strVal s :: args
          | none => args)) kwargs)

/-! ### Finalized Query (query.py) -/

/-- The finalized query's attribute state after __init__
(query.py:18-37): the owning database, the frozen spec, the generated
SQL, the parameter list, and the field names of the synthesized
namedtuple return type. -/
structure Query where
  db : Database
  spec : QuerySpec
  statement : String
  params : List ParamSlot
  returnTypeFields : List String

/-- Embeds Query.__init__ (query.py:18-37): raises QueryError when db is
None, otherwise stores db, spec, statement and params, builds the column
collection over spec.select_exprs, and synthesizes the namedtuple return
type from the collection's names with rename=True. -/
def Query.init (spec : QuerySpec) (statement : String)
    (params : List ParamSlot) (db : Option Database) :
    Except QueryError Query :=
  match db with
  | none => Except.error QueryError.noDatabase
  | some d =>
    Except.ok
      { db := d
        spec := spec
        statement := statement
        params := params
        returnTypeFields :=
          renameFields (ColumnCollection.getNames
            { columns := spec.select_exprs.map queryColumn }) }

/-- Embeds _QueryColumnCollection (query.py:138-145): wraps every
selected expression of the query's spec in a _QueryColumn, in order. -/
def Query.columns (q : Query) : ColumnCollection :=
  { columns := q.spec.select_exprs.map queryColumn }

/-- Embeds the statement-building prefix of Query.execute
(query.py:51-56). The source formats the suffix with
the format string LIMIT {0} OFFSET {0} whose both placeholders name
argument zero, the limit; the offset argument is passed but never
substituted, which this embedding reproduces faithfully. -/
def pagedStatement (statement : String) (limit offset : Option Int) : String :=
  match limit with
  | none => statement
  | some l =>
    match offset with
    | some _ => statement ++ "\nLIMIT " ++ toString l ++ " OFFSET " ++ toString l
    | none => statement ++ "\nLIMIT " ++ toString l

/-- Embeds Query._process_result (query.py:78-80): the namedtuple's
positional make, pairing the i-th synthesized field name with the i-th
cell of the fetched row. -/
def Query._process_result (q : Query) (r : Row) : Record :=
  q.returnTypeFields.zip r

/-- The observable outcome of one Query.execute call: the query object's
attribute state after the call, the statement text and parameter values
handed to cursor.execute, the pool state after the with-block exits, and
either the decoded records or the driver error propagated unchanged. -/
structure ExecResult where
  post : Query
  sent : String
  sentParams : List Cell
  poolAfter : PoolState
  outcome : Except String (List Record)

/-- Embeds Query.execute (query.py:43-66). The driver argument is the
external cursor contract (execute plus fetchall): given statement text
and parameter values it either returns all rows or fails. The with-block
on pool.get checks one connection out for the duration of the call and
returns it on scope exit, also when the driver raises; a saturated pool
blocks the caller, modelled as none. The source assigns no attribute of
self, so the post state equals the receiver. -/
def Query.execute (q : Query) (pool : PoolState)
    (driver : String → List Cell → Except String (List Row))
    (limit offset : Option Int) : Option ExecResult :=
  let statement := pagedStatement q.statement limit offset
  match PoolState.get pool with
  | none => none
  | some p1 =>
    match driver statement (q.params.map Prod.snd) with
    | Except.error e =>
      some { post := q, sent := statement
             sentParams := q.params.map Prod.snd
             poolAfter := PoolState.put p1
             outcome := Except.error e }
    | Except.ok rows =>
      some { post := q, sent := statement
             sentParams := q.params.map Prod.snd
             poolAfter := PoolState.put p1
             outcome := Except.ok (rows.map (Query._process_result q)) }

/-- Modelled from the spec: Query.set_param (exercised by
test_setQueryParamValue but absent from the shipped query.py). It
rebinds a previously named Value expression's bound value in place,
mutating the parameter slot and not the SQL text; rebinding an unknown
named parameter raises immediately. -/
def Query.set_param (q : Query) (name : String) (v : Cell) :
    Except QueryError Query :=
  if q.params.any (fun p => p.fst == some name) then
    Except.ok
      { db := q.db
        spec := q.spec
        statement := q.statement
        params := q.params.map
          (fun p => if p.fst == some name then (p.fst, v) else p)
        returnTypeFields := q.returnTypeFields }
  else
    Except.error (QueryError.unknownParam name)

/-! ### Query builder (modelled from the spec) -/

/-- Modelled from the spec: the QueryBuilder's accumulated state
(src/package/breezeblocks/query_builder.py is not among the shipped
sources): target database, selected expressions, WHERE conjuncts,
GROUP BY list, HAVING condition, DISTINCT flag and the collected
parameter slots. -/
structure QueryBuilder where
  db : Option Database
  select_exprs : List SqlExpr
  where_conds : List SqlExpr
  group_by : List SqlExpr
  having : Option SqlExpr
  distinctFlag : Bool
  params : List ParamSlot

/-- Modelled from the spec: SQL rendering in the fixed clause order
SELECT [DISTINCT] list, FROM, WHERE, GROUP BY, HAVING (spec section
4.2); only the clause order and the use of select versus ref fields
matter to the claims below. -/
def renderStatement (b : QueryBuilder) : String :=
  "SELECT " ++ (if b.distinctFlag then "DISTINCT " else "")
    ++ String.intercalate ", " (b.select_exprs.map SqlExpr.getSelectField)
    ++ (if b.where_conds.isEmpty then "" else
        "\nWHERE " ++ String.intercalate " AND "
          (b.where_conds.map SqlExpr.getRefField))
    ++ (if b.group_by.isEmpty then "" else
        "\nGROUP BY " ++ String.intercalate ", "
          (b.group_by.map SqlExpr.getRefField))
    ++ (match b.having with
        | none => ""
        | some h => "\nHAVING " ++ h.getRefField)

/-- Modelled from the spec: the terminal get() of the builder
(test_havingMustHaveGroupBy; spec section 4.2): it validates that HAVING
is only present when GROUP BY is non-empty, failing with a QueryError
before any Query is constructed, and otherwise freezes the accumulated
state into a finalized Query via Query.init. -/
def QueryBuilder.get (b : QueryBuilder) : Except QueryError Query :=
  if b.having.isSome && b.group_by.isEmpty then
    Except.error QueryError.havingRequiresGroupBy
  else
    Query.init { select_exprs := b.select_exprs } (renderStatement b)
      b.params b.db

/-- Whether an Except result carries a constructed value. -/
def isOkResult {e a : Type} (r : Except e a) : Bool :=
  match r with
  | Except.ok _ => true
  | Except.error _ => false

/-- Current parameter marker of a successfully constructed Database. -/
def markerOf (r : Except DatabaseError Database) : Option String :=
  match r with
  | Except.ok d => some d._param_marker
  | Except.error _ => none

/-! ### Lemmas about decimal rendering of naturals -/

/-- Numeric value of a decimal digit character. -/
def charVal (c : Char) : Nat := c.toNat - 48

/-- Value of a digit string read left to right on top of accumulator a. -/
def valFrom (a : Nat) (ds : List Char) : Nat :=
  ds.foldl (fun x c => 10 * x + charVal c) a

/-! ### Concrete instances used to exercise the theorems below -/

/-- A qmark-style DBAPI module. -/
def sampleModule : DBAPIModule :=
  { paramstyle := "qmark", connect := fun _ _ => { connId := 0 } }

/-- A format-style DBAPI module. -/
def formatModule : DBAPIModule :=
  { paramstyle := "format", connect := fun _ _ => { connId := 0 } }

/-- A module with an unsupported placeholder style. -/
def numericModule : DBAPIModule :=
  { paramstyle := "numeric", connect := fun _ _ => { connId := 0 } }

/-- The Database that Database.init builds from sampleModule with
minconn 1 and maxconn 2. -/
def sampleDb : Database :=
  { _dsn := none
    _dbapi := sampleModule
    _param_marker := "?"
    pool := { idle := 1, inUse := 0, maxconn := 2 }
    _connection_args := none
    _connection_kwargs := none }

/-- A SELECT list whose derived names hold a duplicate, a keyword and a
non-identifier, to exercise the rename pass. -/
def sampleSpec : QuerySpec :=
  { select_exprs :=
      [ { getName := "GenreId", getRefField := "Track.GenreId"
          getSelectField := "Track.GenreId" }
      , { getName := "GenreId", getRefField := "Genre.GenreId"
          getSelectField := "Genre.GenreId" }
      , { getName := "class", getRefField := "Track.class"
          getSelectField := "Track.class" }
      , { getName := "2x", getRefField := "Track.2x"
          getSelectField := "Track.2x" } ] }

/-- Parameter slots with one named Value expression. -/
def sampleParams : List ParamSlot :=
  [(some "genre_id", Cell.intVal 1), (none, Cell.intVal 7)]

/-- The finalized Query that Query.init builds from the pieces above. -/
def sampleQuery : Query :=
  { db := sampleDb
    spec := sampleSpec
    statement := "SELECT g"
    params := sampleParams
    returnTypeFields :=
      renameFields (ColumnCollection.getNames
        { columns := sampleSpec.select_exprs.map queryColumn }) }

/-- A one-idle-connection pool. -/
def samplePool : PoolState := { idle := 1, inUse := 0, maxconn := 2 }

/-- A driver whose execute always fails. -/
def failingDriver : String → List Cell → Except String (List Row) :=
  fun _ _ => Except.error "database is locked"

/-- A driver returning one four-cell row. -/
def okDriver : String → List Cell → Except String (List Row) :=
  fun _ _ => Except.ok
    [[Cell.intVal 1, Cell.intVal 2, Cell.intVal 3, Cell.intVal 4]]

/-- A builder with HAVING set and GROUP BY empty. -/
def sampleBuilder : QueryBuilder :=
  { db := some sampleDb
    select_exprs := [ { getName := "GenreId", getRefField := "Track.GenreId"
                        getSelectField := "Track.GenreId" } ]
    where_conds := []
    group_by := []
    having := some { getName := "", getRefField := "COUNT(TrackId) > 25"
                     getSelectField := "COUNT(TrackId) > 25" }
    distinctFlag := false
    params := [] }

theorem charVal_digitChar : ∀ d < 10, charVal (Nat.digitChar d) = d := by decide

theorem digitChar_isDigit : ∀ d < 10, (Nat.digitChar d).isDigit = true := by
  decide

theorem valFrom_toDigitsCore :
    ∀ (f n : Nat) (ds : List Char), n < f →
      valFrom 0 (Nat.toDigitsCore 10 f n ds) = valFrom n ds := by
  intro f
  induction f with
  | zero => intro n ds h; omega
  | succ f ih =>
    intro n ds h
    rw [Nat.toDigitsCore]
    by_cases h0 : n / 10 = 0
    · have hn : n < 10 := by omega
      simp only [h0, if_pos]
      show valFrom (10 * 0 + charVal (Nat.digitChar (n % 10))) ds = valFrom n ds
      rw [charVal_digitChar (n % 10) (Nat.mod_lt n (by omega))]
      have : 10 * 0 + n % 10 = n := by omega
      rw [this]
    · simp only [h0, if_neg, ite_false]
      have hlt : n / 10 < f := by
        have h1 : 0 < n := by
          rcases Nat.eq_zero_or_pos n with h2 | h2
          · exfalso; apply h0; rw [h2]
          · exact h2
        have := Nat.div_lt_self h1 (by omega : 1 < 10)
        omega
      rw [ih (n / 10) (Nat.digitChar (n % 10) :: ds) hlt]
      show valFrom (10 * (n / 10) + charVal (Nat.digitChar (n % 10))) ds
          = valFrom n ds
      rw [charVal_digitChar (n % 10) (Nat.mod_lt n (by omega))]
      have : 10 * (n / 10) + n % 10 = n := by omega
      rw [this]

theorem valFrom_repr (n : Nat) : valFrom 0 (Nat.repr n).data = n := by
  have h1 : (Nat.repr n).data = Nat.toDigits 10 n := rfl
  rw [h1, Nat.toDigits]
  rw [valFrom_toDigitsCore (n + 1) n [] (Nat.lt_succ_self n)]
  rfl

theorem natRepr_injective {m n : Nat} (h : Nat.repr m = Nat.repr n) : m = n := by
  have hm := valFrom_repr m
  have hn := valFrom_repr n
  rw [h] at hm
  omega

theorem toDigitsCore_digits :
    ∀ (f n : Nat) (ds : List Char), (∀ c ∈ ds, c.isDigit = true) →
      ∀ c ∈ Nat.toDigitsCore 10 f n ds, c.isDigit = true := by
  intro f
  induction f with
  | zero => intro n ds hds; intro c hc; exact hds c hc
  | succ f ih =>
    intro n ds hds
    rw [Nat.toDigitsCore]
    by_cases h0 : n / 10 = 0
    · simp only [h0, if_pos]
      intro c hc
      rcases List.mem_cons.mp hc with h | h
      · rw [h]; exact digitChar_isDigit (n % 10) (Nat.mod_lt n (by omega))
      · exact hds c h
    · simp only [h0, if_neg, ite_false]
      apply ih
      intro c hc
      rcases List.mem_cons.mp hc with h | h
      · rw [h]; exact digitChar_isDigit (n % 10) (Nat.mod_lt n (by omega))
      · exact hds c h

theorem repr_digits (n : Nat) : ∀ c ∈ (Nat.repr n).data, c.isDigit = true := by
  have h1 : (Nat.repr n).data = Nat.toDigits 10 n := rfl
  rw [h1, Nat.toDigits]
  exact toDigitsCore_digits (n + 1) n [] (by intro c hc; cases hc)

theorem startsWithUnderscore_append (s : String) :
    startsWithUnderscore ("_" ++ s) = true := by
  have hdata : ("_" ++ s).data = '_' :: s.data := by
    rw [String.data_append]; rfl
  simp [startsWithUnderscore, hdata]

theorem underscore_append_inj {s t : String} (h : "_" ++ s = "_" ++ t) :
    s = t := by
  apply String.ext
  have h2 := congrArg String.data h
  rw [String.data_append, String.data_append] at h2
  exact List.append_cancel_left h2

theorem isIdentifier_underscore_repr (i : Nat) :
    isIdentifier ("_" ++ Nat.repr i) = true := by
  have hdata : ("_" ++ Nat.repr i).data = '_' :: (Nat.repr i).data := by
    rw [String.data_append]; rfl
  rw [isIdentifier, hdata]
  simp only [Bool.and_eq_true]
  refine ⟨by decide, ?_⟩
  rw [List.all_eq_true]
  intro c hc
  have hd := repr_digits i c hc
  simp [isIdentChar, Char.isAlphanum, hd]

theorem keywords_no_underscore :
    ∀ k ∈ pythonKeywords, startsWithUnderscore k = false := by decide

theorem isPythonKeyword_underscore (s : String) :
    isPythonKeyword ("_" ++ s) = false := by
  by_contra h
  rw [Bool.not_eq_false, isPythonKeyword, List.any_eq_true] at h
  obtain ⟨k, hk, hks⟩ := h
  have hke : k = "_" ++ s := by simpa using hks
  have h2 := keywords_no_underscore k hk
  rw [hke, startsWithUnderscore_append] at h2
  simp at h2

theorem contains_iff_mem {l : List String} {a : String} :
    l.contains a = true ↔ a ∈ l := by
  simp [List.contains, List.elem_iff]

theorem renameGo_length :
    ∀ (rest : List String) (i : Nat) (seen : List String),
      (renameGo i seen rest).length = rest.length := by
  intro rest
  induction rest with
  | nil => intro i seen; rfl
  | cons n rest ih => intro i seen; simp [renameGo, ih]

theorem renameFields_length (names : List String) :
    (renameFields names).length = names.length :=
  renameGo_length names 0 []

theorem validGo_renameGo :
    ∀ (rest : List String) (i : Nat) (seen acc : List String),
      (∀ s ∈ acc, (∃ k, k < i ∧ s = "_" ++ Nat.repr k) ∨
        (startsWithUnderscore s = false ∧ s ∈ seen)) →
      validFieldsGo acc (renameGo i seen rest) = true := by
  intro rest
  induction rest with
  | nil => intro i seen acc _; rfl
  | cons n rest ih =>
    intro i seen acc hacc
    rw [renameGo]
    cases hb : (!(isIdentifier n) || isPythonKeyword n
        || startsWithUnderscore n || seen.contains n) with
    | true =>
      rw [if_pos rfl, validFieldsGo]
      have hm1 := isIdentifier_underscore_repr i
      have hm2 := isPythonKeyword_underscore (Nat.repr i)
      have hm3 : acc.contains ("_" ++ Nat.repr i) = false := by
        by_contra hc
        rw [Bool.not_eq_false, contains_iff_mem] at hc
        rcases hacc _ hc with ⟨k, hk, hkeq⟩ | ⟨hu, _⟩
        · have := natRepr_injective (underscore_append_inj hkeq)
          omega
        · rw [startsWithUnderscore_append] at hu
          simp at hu
      rw [hm1, hm2, hm3]
      simp only [Bool.not_false, Bool.true_and, Bool.and_true]
      apply ih (i + 1) (n :: seen) (("_" ++ Nat.repr i) :: acc)
      intro s hs
      rcases List.mem_cons.mp hs with rfl | hs2
      · exact Or.inl ⟨i, Nat.lt_succ_self i, rfl⟩
      · rcases hacc s hs2 with ⟨k, hk, hkeq⟩ | ⟨hu, hseen⟩
        · exact Or.inl ⟨k, Nat.lt_succ_of_lt hk, hkeq⟩
        · exact Or.inr ⟨hu, List.mem_cons_of_mem _ hseen⟩
    | false =>
      rw [if_neg (by simp), validFieldsGo]
      have h1 : isIdentifier n = true := by
        by_contra hx
        rw [Bool.not_eq_true] at hx
        rw [hx] at hb
        simp at hb
      have h2 : isPythonKeyword n = false := by
        by_contra hx
        rw [Bool.not_eq_false] at hx
        rw [hx] at hb
        simp at hb
      have h3 : startsWithUnderscore n = false := by
        by_contra hx
        rw [Bool.not_eq_false] at hx
        rw [hx] at hb
        simp at hb
      have h4 : seen.contains n = false := by
        by_contra hx
        rw [Bool.not_eq_false] at hx
        rw [hx] at hb
        simp at hb
      have h5 : acc.contains n = false := by
        by_contra hc
        rw [Bool.not_eq_false, contains_iff_mem] at hc
        rcases hacc n hc with ⟨k, _, hkeq⟩ | ⟨_, hseen⟩
        · rw [hkeq, startsWithUnderscore_append] at h3
          simp at h3
        · rw [← contains_iff_mem] at hseen
          rw [hseen] at h4
          simp at h4
      rw [h1, h2, h5]
      simp only [Bool.not_false, Bool.true_and, Bool.and_true]
      apply ih (i + 1) (n :: seen) (n :: acc)
      intro s hs
      rcases List.mem_cons.mp hs with rfl | hs2
      · exact Or.inr ⟨h3, List.mem_cons_self _ _⟩
      · rcases hacc s hs2 with ⟨k, hk, hkeq⟩ | ⟨hu, hseen⟩
        · exact Or.inl ⟨k, Nat.lt_succ_of_lt hk, hkeq⟩
        · exact Or.inr ⟨hu, List.mem_cons_of_mem _ hseen⟩

theorem fieldNamesValid_renameFields (names : List String) :
    fieldNamesValid (renameFields names) = true := by
  apply validGo_renameGo
  intro s hs
  exact absurd hs (List.not_mem_nil s)

theorem execute_sent (q : Query) (pool : PoolState)
    (driver : String → List Cell → Except String (List Row))
    (l o : Option Int) (r : ExecResult)
    (h : Query.execute q pool driver l o = some r) :
    r.post = q ∧ r.sent = pagedStatement q.statement l o
    ∧ r.sentParams = q.params.map Prod.snd := by
  unfold Query.execute at h
  cases hpool : PoolState.get pool with
  | none => rw [hpool] at h; cases h
  | some p1 =>
    rw [hpool] at h
    dsimp only at h
    cases hdrv : driver (pagedStatement q.statement l o)
        (q.params.map Prod.snd) with
    | error e =>
      rw [hdrv] at h
      injection h with h1
      rw [← h1]
      exact ⟨rfl, rfl, rfl⟩
    | ok rows =>
      rw [hdrv] at h
      injection h with h1
      rw [← h1]
      exact ⟨rfl, rfl, rfl⟩

theorem poolGet_put (pool p1 : PoolState)
    (h : PoolState.get pool = some p1) :
    (PoolState.put p1).inUse = pool.inUse
    ∧ (PoolState.put p1).idle + (PoolState.put p1).inUse
        = p1.idle + p1.inUse := by
  unfold PoolState.get at h
  by_cases hidle : 0 < pool.idle
  · rw [if_pos hidle] at h
    injection h with h1
    rw [← h1]
    simp only [PoolState.put]
    omega
  · rw [if_neg hidle] at h
    by_cases hmax : pool.idle + pool.inUse < pool.maxconn
    · rw [if_pos hmax] at h
      injection h with h1
      rw [← h1]
      simp only [PoolState.put]
      omega
    · rw [if_neg hmax] at h
      cases h

/-- C1: query.py:54 formats the paging suffix with the format string
LIMIT {0} OFFSET {0}, both placeholders naming argument zero (the
limit), so with limit 10 and offset 5 the executed statement ends in
LIMIT 10 OFFSET 10 and not in the claimed LIMIT 10 OFFSET 5: the OFFSET
placeholder receives the limit value, not the offset value. -/
theorem C1_offset_receives_limit_value :
    pagedStatement "SELECT 1" (some 10) (some 5)
      = "SELECT 1" ++ "\nLIMIT 10 OFFSET 10"
    ∧ pagedStatement "SELECT 1" (some 10) (some 5)
      ≠ "SELECT 1" ++ "\nLIMIT 10 OFFSET 5" := by
  constructor
  · rfl
  · decide

/-- C7: constructing a Query with db equal to None raises QueryError at
construction itself (query.py:26-27), so no Query value is ever
produced from such a call. -/
theorem C7_query_without_database_raises (spec : QuerySpec)
    (statement : String) (params : List ParamSlot) :
    Query.init spec statement params none
      = Except.error QueryError.noDatabase
    ∧ isOkResult (Query.init spec statement params none) = false :=
  ⟨rfl, rfl⟩

/-- C5: on a builder with HAVING set and GROUP BY empty, the terminal
get() fails with a QueryError and produces no Query, so the failure can
never be deferred to execute(), which only exists on a produced
Query. -/
theorem C5_having_without_group_by_fails_at_get (b : QueryBuilder)
    (h1 : b.having.isSome = true) (h2 : b.group_by = []) :
    QueryBuilder.get b = Except.error QueryError.havingRequiresGroupBy
    ∧ isOkResult (QueryBuilder.get b) = false := by
  have hcond : (b.having.isSome && b.group_by.isEmpty) = true := by
    rw [h1, h2]
    rfl
  constructor
  · rw [QueryBuilder.get, if_pos hcond]
  · rw [QueryBuilder.get, if_pos hcond]
    rfl

theorem C5_witness :
    sampleBuilder.having.isSome = true ∧ sampleBuilder.group_by = []
    ∧ (QueryBuilder.get sampleBuilder
        = Except.error QueryError.havingRequiresGroupBy
      ∧ isOkResult (QueryBuilder.get sampleBuilder) = false) :=
  ⟨rfl, rfl, C5_having_without_group_by_fails_at_get sampleBuilder rfl rfl⟩

/-- C3: the column namespace a finalized Query exposes to an outer query
(query.py:138-145) lists exactly the inner SELECT list's output names in
order, and every pseudo-column in it (query.py:112-136) renders as the
bare output name, with no table qualification, in both the SELECT and
the reference context. -/
theorem C3_subquery_column_namespace (q : Query) (c : SqlExpr)
    (hc : c ∈ (Query.columns q).columns) :
    (Query.columns q).getNames = q.spec.select_exprs.map SqlExpr.getName
    ∧ c.getSelectField = c.getName
    ∧ c.getRefField = c.getName := by
  refine ⟨?_, ?_⟩
  · rw [Query.columns, ColumnCollection.getNames]
    rw [List.map_map]
    rfl
  · have hc2 : c ∈ q.spec.select_exprs.map queryColumn := hc
    obtain ⟨e, _, he⟩ := List.mem_map.mp hc2
    rw [← he]
    exact ⟨rfl, rfl⟩

theorem C3_witness :
    queryColumn { getName := "GenreId", getRefField := "Track.GenreId"
                  getSelectField := "Track.GenreId" }
      ∈ (Query.columns sampleQuery).columns
    ∧ ((Query.columns sampleQuery).getNames
        = sampleQuery.spec.select_exprs.map SqlExpr.getName
      ∧ (queryColumn { getName := "GenreId", getRefField := "Track.GenreId"
                       getSelectField := "Track.GenreId" }).getSelectField
        = (queryColumn { getName := "GenreId", getRefField := "Track.GenreId"
                         getSelectField := "Track.GenreId" }).getName
      ∧ (queryColumn { getName := "GenreId", getRefField := "Track.GenreId"
                       getSelectField := "Track.GenreId" }).getRefField
        = (queryColumn { getName := "GenreId", getRefField := "Track.GenreId"
                         getSelectField := "Track.GenreId" }).getName) :=
  ⟨by decide, C3_subquery_column_namespace sampleQuery _ (by decide)⟩

/-- C4: for a Query built by Query.__init__, the row decoder
(query.py:78-80) pairs the i-th synthesized field name with the i-th
cell of the fetched row, one to one by position, and the synthesized
field names (the SELECT list's derived names after namedtuple's
rename=True pass, query.py:35-37) always pass namedtuple's validation:
even when the derived names contain duplicates, keywords or invalid
identifiers, the rename pass deterministically replaces each such
position with an underscore followed by the position index, so a record
type is produced rather than an error. -/
theorem C4_row_decoding (spec : QuerySpec) (statement : String)
    (params : List ParamSlot) (db : Database) (q : Query)
    (hq : Query.init spec statement params (some db) = Except.ok q)
    (row : Row) (hlen : row.length = q.returnTypeFields.length) :
    (Query._process_result q row).map Prod.fst = q.returnTypeFields
    ∧ (Query._process_result q row).map Prod.snd = row
    ∧ fieldNamesValid q.returnTypeFields = true := by
  have hq2 : q.returnTypeFields
      = renameFields (ColumnCollection.getNames
          { columns := spec.select_exprs.map queryColumn }) := by
    unfold Query.init at hq
    injection hq with h1
    rw [← h1]
  refine ⟨?_, ?_, ?_⟩
  · exact List.map_fst_zip _ _ (le_of_eq hlen.symm)
  · exact List.map_snd_zip _ _ (le_of_eq hlen)
  · rw [hq2]
    exact fieldNamesValid_renameFields _

theorem C4_witness :
    Query.init sampleSpec "SELECT g" sampleParams (some sampleDb)
      = Except.ok sampleQuery
    ∧ ([Cell.intVal 1, Cell.intVal 2, Cell.intVal 3,
        Cell.intVal 4] : Row).length = sampleQuery.returnTypeFields.length
    ∧ ((Query._process_result sampleQuery
          [Cell.intVal 1, Cell.intVal 2, Cell.intVal 3,
           Cell.intVal 4]).map Prod.fst = sampleQuery.returnTypeFields
      ∧ (Query._process_result sampleQuery
          [Cell.intVal 1, Cell.intVal 2, Cell.intVal 3,
           Cell.intVal 4]).map Prod.snd
        = [Cell.intVal 1, Cell.intVal 2, Cell.intVal 3, Cell.intVal 4]
      ∧ fieldNamesValid sampleQuery.returnTypeFields = true) :=
  ⟨rfl, by decide,
    C4_row_decoding sampleSpec "SELECT g" sampleParams sampleDb sampleQuery
      rfl _ (by decide)⟩

/-- C2: when a finalized Query holds a parameter slot whose Value
expression carries the given name, set_param succeeds; the SQL statement
text, the spec, the synthesized field names and every slot bound to a
different name are unchanged, the named slots now hold the new value,
and the next execute() sends the same statement text with the updated
parameter values, with no re-finalization. -/
theorem C2_set_param_rebinds_in_place (q : Query) (name : String) (v : Cell)
    (hmem : q.params.any (fun p => p.fst == some name) = true) :
    isOkResult (Query.set_param q name v) = true
    ∧ ∀ q2, Query.set_param q name v = Except.ok q2 →
        q2.statement = q.statement
        ∧ q2.returnTypeFields = q.returnTypeFields
        ∧ q2.spec = q.spec
        ∧ q2.params.length = q.params.length
        ∧ (∀ (i : Nat) (p : ParamSlot), q.params[i]? = some p →
            (p.fst ≠ some name → q2.params[i]? = some p)
            ∧ (p.fst = some name → q2.params[i]? = some (p.fst, v)))
        ∧ ∀ pool driver l o r, Query.execute q2 pool driver l o = some r →
            r.sent = pagedStatement q.statement l o
            ∧ r.sentParams = q2.params.map Prod.snd := by
  unfold Query.set_param
  rw [if_pos hmem]
  constructor
  · rfl
  · intro q2 h2
    injection h2 with h3
    subst h3
    refine ⟨rfl, rfl, rfl, by simp, ?_, ?_⟩
    · intro i p hp
      dsimp only
      constructor
      · intro hne
        rw [List.getElem?_map, hp, Option.map_some',
          if_neg (show ¬((p.fst == some name) = true) by simp [hne])]
      · intro heq
        rw [List.getElem?_map, hp, Option.map_some',
          if_pos (show (p.fst == some name) = true by simp [heq])]
    · intro pool driver l o r hr
      obtain ⟨_, hsent, hparams⟩ := execute_sent _ pool driver l o r hr
      exact ⟨hsent, hparams⟩

theorem C2_witness :
    sampleQuery.params.any (fun p => p.fst == some "genre_id") = true
    ∧ (isOkResult (Query.set_param sampleQuery "genre_id"
        (Cell.intVal 2)) = true
      ∧ ∀ q2, Query.set_param sampleQuery "genre_id" (Cell.intVal 2)
          = Except.ok q2 →
          q2.statement = sampleQuery.statement
          ∧ q2.returnTypeFields = sampleQuery.returnTypeFields
          ∧ q2.spec = sampleQuery.spec
          ∧ q2.params.length = sampleQuery.params.length
          ∧ (∀ (i : Nat) (p : ParamSlot), sampleQuery.params[i]? = some p →
              (p.fst ≠ some "genre_id" → q2.params[i]? = some p)
              ∧ (p.fst = some "genre_id" →
                  q2.params[i]? = some (p.fst, Cell.intVal 2)))
          ∧ ∀ pool driver l o r, Query.execute q2 pool driver l o = some r →
              r.sent = pagedStatement sampleQuery.statement l o
              ∧ r.sentParams = q2.params.map Prod.snd) :=
  ⟨by decide,
   C2_set_param_rebinds_in_place sampleQuery "genre_id" (Cell.intVal 2)
     (by decide)⟩

/-- C6: when the checkout succeeds and the driver-level execute fails,
Query.execute propagates exactly the driver's error with no retry and no
partial rows, and the with-block still returns the checked-out
connection: the pool's in-use count is back to its pre-call value and no
connection is leaked. -/
theorem C6_driver_error_propagates (q : Query) (pool p1 : PoolState)
    (driver : String → List Cell → Except String (List Row))
    (l o : Option Int) (e : String)
    (hget : PoolState.get pool = some p1)
    (hdrv : driver (pagedStatement q.statement l o) (q.params.map Prod.snd)
      = Except.error e) :
    Query.execute q pool driver l o = some
      { post := q
        sent := pagedStatement q.statement l o
        sentParams := q.params.map Prod.snd
        poolAfter := PoolState.put p1
        outcome := Except.error e }
    ∧ (PoolState.put p1).inUse = pool.inUse
    ∧ (PoolState.put p1).idle + (PoolState.put p1).inUse
        = p1.idle + p1.inUse := by
  refine ⟨?_, (poolGet_put pool p1 hget).1, (poolGet_put pool p1 hget).2⟩
  unfold Query.execute
  rw [hget]
  dsimp only
  rw [hdrv]

theorem C6_witness :
    PoolState.get samplePool = some { idle := 0, inUse := 1, maxconn := 2 }
    ∧ failingDriver (pagedStatement sampleQuery.statement none none)
        (sampleQuery.params.map Prod.snd)
      = Except.error "database is locked"
    ∧ (Query.execute sampleQuery samplePool failingDriver none none = some
        { post := sampleQuery
          sent := pagedStatement sampleQuery.statement none none
          sentParams := sampleQuery.params.map Prod.snd
          poolAfter := PoolState.put { idle := 0, inUse := 1, maxconn := 2 }
          outcome := Except.error "database is locked" }
      ∧ (PoolState.put { idle := 0, inUse := 1, maxconn := 2 }).inUse
          = samplePool.inUse
      ∧ (PoolState.put { idle := 0, inUse := 1, maxconn := 2 }).idle
          + (PoolState.put { idle := 0, inUse := 1, maxconn := 2 }).inUse
        = ({ idle := 0, inUse := 1, maxconn := 2 } : PoolState).idle
          + ({ idle := 0, inUse := 1, maxconn := 2 } : PoolState).inUse) :=
  ⟨rfl, rfl,
   C6_driver_error_propagates sampleQuery samplePool
     { idle := 0, inUse := 1, maxconn := 2 } failingDriver none none
     "database is locked" rfl rfl⟩

/-- C8: Database construction with no DBAPI module raises
MissingModuleError (database.py:25-26); a module whose declared
paramstyle is none of qmark, format, pyformat raises
UnsupportedModuleError at construction (database.py:77-85); otherwise
the parameter marker is selected once at construction, as the question
mark for qmark and as percent-s for both format and pyformat. -/
theorem C8_param_marker_selection (ca : Option (List Cell))
    (ck : Option (List (String × Cell))) (dsn : Option String)
    (minconn maxconn : Nat) :
    Database.init ca ck none dsn minconn maxconn
      = Except.error DatabaseError.missingModuleError
    ∧ (∀ m : DBAPIModule, m.paramstyle ≠ "qmark" →
        m.paramstyle ≠ "format" → m.paramstyle ≠ "pyformat" →
        Database.init ca ck (some m) dsn minconn maxconn
          = Except.error DatabaseError.unsupportedModuleError)
    ∧ (∀ m : DBAPIModule, m.paramstyle = "qmark" →
        markerOf (Database.init ca ck (some m) dsn minconn maxconn)
          = some "?")
    ∧ (∀ m : DBAPIModule,
        m.paramstyle = "format" ∨ m.paramstyle = "pyformat" →
        markerOf (Database.init ca ck (some m) dsn minconn maxconn)
          = some "%s") := by
  refine ⟨rfl, ?_, ?_, ?_⟩
  · intro m h1 h2 h3
    unfold Database.init _get_param_marker
    dsimp only
    rw [if_neg h1, if_neg h2, if_neg h3]
  · intro m h
    unfold Database.init _get_param_marker
    dsimp only
    rw [h]
    rfl
  · intro m h
    rcases h with h | h
    · unfold Database.init _get_param_marker
      dsimp only
      rw [h]
      rfl
    · unfold Database.init _get_param_marker
      dsimp only
      rw [h]
      rfl

theorem C8_witness :
    Database.init none none none none 1 2
      = Except.error DatabaseError.missingModuleError
    ∧ Database.init none none (some numericModule) none 1 2
      = Except.error DatabaseError.unsupportedModuleError
    ∧ markerOf (Database.init none none (some sampleModule) none 1 2)
      = some "?"
    ∧ markerOf (Database.init none none (some formatModule) none 1 2)
      = some "%s" :=
  ⟨(C8_param_marker_selection none none none 1 2).1,
   (C8_param_marker_selection none none none 1 2).2.1 numericModule
     (by decide) (by decide) (by decide),
   (C8_param_marker_selection none none none 1 2).2.2.1 sampleModule rfl,
   (C8_param_marker_selection none none none 1 2).2.2.2 formatModule
     (Or.inl rfl)⟩

/-- C9: Query.execute builds the paged statement on a local copy only:
after any call the query object's stored statement, parameter list and
synthesized field names are unchanged, the statement actually sent is
the stored text plus the call's own paging suffix, and a second call on
the same finalized query with different paging again pages the original
stored text. -/
theorem C9_execute_leaves_query_unchanged (q : Query)
    (pool pool2 : PoolState)
    (driver driver2 : String → List Cell → Except String (List Row))
    (l o l2 o2 : Option Int) (r r2 : ExecResult)
    (h1 : Query.execute q pool driver l o = some r)
    (h2 : Query.execute r.post pool2 driver2 l2 o2 = some r2) :
    r.post.statement = q.statement
    ∧ r.post.params = q.params
    ∧ r.post.returnTypeFields = q.returnTypeFields
    ∧ r.sent = pagedStatement q.statement l o
    ∧ r2.sent = pagedStatement q.statement l2 o2 := by
  obtain ⟨hp, hs, _⟩ := execute_sent q pool driver l o r h1
  obtain ⟨_, hs2, _⟩ := execute_sent r.post pool2 driver2 l2 o2 r2 h2
  rw [hp] at hs2
  exact ⟨by rw [hp], by rw [hp], by rw [hp], hs, hs2⟩

/-- C10: every Database that __init__ actually constructs has no
_connection_args and no _connection_kwargs attribute (database.py:9-37
never assigns them), so connect() (database.py:72-75) always raises
AttributeError and can never return a connection. -/
theorem C10_connect_raises_attribute_error (ca : Option (List Cell))
    (ck : Option (List (String × Cell))) (m : DBAPIModule)
    (dsn : Option String) (minconn maxconn : Nat) (d : Database)
    (h : Database.init ca ck (some m) dsn minconn maxconn = Except.ok d) :
    Database.connect d
      = Except.error (PyRuntimeError.attributeError "_connection_args") := by
  unfold Database.init at h
  dsimp only at h
  cases hm : _get_param_marker m with
  | error e =>
    rw [hm] at h
    cases h
  | ok marker =>
    rw [hm] at h
    dsimp only at h
    injection h with h1
    rw [← h1]
    rfl

theorem C10_witness :
    Database.init none none (some sampleModule) none 1 2
      = Except.ok sampleDb
    ∧ Database.connect sampleDb
      = Except.error (PyRuntimeError.attributeError "_connection_args") :=
  ⟨rfl,
   C10_connect_raises_attribute_error none none sampleModule none 1 2
     sampleDb rfl⟩

theorem C9_witness :
    Query.execute sampleQuery samplePool okDriver none none = some
      { post := sampleQuery
        sent := "SELECT g"
        sentParams := [Cell.intVal 1, Cell.intVal 7]
        poolAfter := { idle := 1, inUse := 0, maxconn := 2 }
        outcome := Except.ok [Query._process_result sampleQuery
          [Cell.intVal 1, Cell.intVal 2, Cell.intVal 3, Cell.intVal 4]] }
    ∧ Query.execute sampleQuery samplePool okDriver (some 3) (some 4) = some
      { post := sampleQuery
        sent := "SELECT g\nLIMIT 3 OFFSET 3"
        sentParams := [Cell.intVal 1, Cell.intVal 7]
        poolAfter := { idle := 1, inUse := 0, maxconn := 2 }
        outcome := Except.ok [Query._process_result sampleQuery
          [Cell.intVal 1, Cell.intVal 2, Cell.intVal 3, Cell.intVal 4]] }
    ∧ (sampleQuery.statement = sampleQuery.statement
      ∧ sampleQuery.params = sampleQuery.params
      ∧ sampleQuery.returnTypeFields = sampleQuery.returnTypeFields
      ∧ "SELECT g" = pagedStatement sampleQuery.statement none none
      ∧ "SELECT g\nLIMIT 3 OFFSET 3"
          = pagedStatement sampleQuery.statement (some 3) (some 4)) :=
  ⟨rfl, rfl,
   C9_execute_leaves_query_unchanged sampleQuery samplePool samplePool
     okDriver okDriver none none (some 3) (some 4)
     { post := sampleQuery
       sent := "SELECT g"
       sentParams := [Cell.intVal 1, Cell.intVal 7]
       poolAfter := { idle := 1, inUse := 0, maxconn := 2 }
       outcome := Except.ok [Query._process_result sampleQuery
         [Cell.intVal 1, Cell.intVal 2, Cell.intVal 3, Cell.intVal 4]] }
     { post := sampleQuery
       sent := "SELECT g\nLIMIT 3 OFFSET 3"
       sentParams := [Cell.intVal 1, Cell.intVal 7]
       poolAfter := { idle := 1, inUse := 0, maxconn := 2 }
       outcome := Except.ok [Query._process_result sampleQuery
         [Cell.intVal 1, Cell.intVal 2, Cell.intVal 3, Cell.intVal 4]] }
     rfl rfl⟩
